import Mathlib

/-!
Verification of the go-pong repository (a Pong variant in Go on OpenGL).

The development shallowly embeds the game-logic parts of the source:
`GameObject`/`BallObject` (game_object file), the particle generator
(particle_generator file), the glyph lookup of the text renderer
(text_renderer file) and the `Game` state machine (game file).

Modelling conventions:
- Go `float32` values are modelled as `ℚ` (exact arithmetic on the literals
  occurring in the program); Go `int` values as `ℤ`.
- Mutating methods become functions returning the updated structure.
- `math/rand` draws are passed in as explicit parameters: a caller supplies
  the value that `rand.Int31n(50)` produced, so theorems quantify over all
  draws satisfying the `Int31n` contract `0 ≤ r < 50`.
- Slice indexing `xs[i]` is modelled with `List.getD`; separate bounds
  theorems show each access of the modelled code stays in range, which is
  exactly the "never panics" content of the safety claims.
- OpenGL calls, shaders, textures and window handling are pure I/O with no
  effect on the game data and are not part of the embedding.
-/

set_option linter.unusedVariables false

/-- 2-component vector, modelling `mgl32.Vec2` with exact coordinates. -/
structure Vec2 where
  x : ℚ
  y : ℚ
deriving DecidableEq, Repr

/-- `mgl32.Vec2.Add`. -/
def Vec2.Add (a b : Vec2) : Vec2 := ⟨a.x + b.x, a.y + b.y⟩

/-- `mgl32.Vec2.Sub`. -/
def Vec2.Sub (a b : Vec2) : Vec2 := ⟨a.x - b.x, a.y - b.y⟩

/-- `mgl32.Vec2.Mul` (scalar multiple). -/
def Vec2.Mul (a : Vec2) (s : ℚ) : Vec2 := ⟨a.x * s, a.y * s⟩

/-- 3-component vector, modelling `mgl32.Vec3`. -/
structure Vec3 where
  x : ℚ
  y : ℚ
  z : ℚ
deriving DecidableEq, Repr

/-- 4-component vector, modelling `mgl32.Vec4` (used for particle colors). -/
structure Vec4 where
  x : ℚ
  y : ℚ
  z : ℚ
  w : ℚ
deriving DecidableEq, Repr

/-- `GameObject` from the game_object file: position, size, velocity, color,
rotation. -/
structure GameObject where
  position : Vec2
  size : Vec2
  velocity : Vec2
  color : Vec3
  rotation : ℚ
deriving DecidableEq, Repr

/-- `newGameObject(position, size)`. -/
def newGameObject (position size : Vec2) : GameObject :=
  { position := position
    size := size
    velocity := ⟨0, 0⟩
    rotation := 0
    color := ⟨1, 1, 1⟩ }

/-- `GameObject.Reset(position)`: only the position is overwritten. -/
def GameObject.Reset (o : GameObject) (position : Vec2) : GameObject :=
  { o with position := position }

/-- `GameObject.CheckCollision(other)`: AABB overlap test, both axes. -/
def GameObject.CheckCollision (o other : GameObject) : Bool :=
  let collisionX :=
    decide (o.position.x + o.size.x ≥ other.position.x) &&
    decide (other.position.x + other.size.x ≥ o.position.x)
  let collisionY :=
    decide (o.position.y + o.size.y ≥ other.position.y) &&
    decide (other.position.y + other.size.y ≥ o.position.y)
  collisionX && collisionY

/-- `BallObject`: embeds `GameObject`, adds `isStuck` and `radius`. -/
structure BallObject extends GameObject where
  isStuck : Bool
  radius : ℚ
deriving DecidableEq, Repr

/-- `newBallObject(position, radius, velocity)`. -/
def newBallObject (position : Vec2) (radius : ℚ) (velocity : Vec2) : BallObject :=
  { isStuck := false
    radius := radius
    position := position
    size := ⟨radius * 2, radius * 2⟩
    velocity := velocity
    rotation := 0
    color := ⟨1, 1, 1⟩ }

/-- `BallObject.Move(deltaTime, windowWidth, windowHeight)`: integrate the
position by velocity, then reflect the vertical velocity and clamp the
position on top/bottom wall contact (the bottom test is an `else if`). -/
def BallObject.Move (b : BallObject) (deltaTime : ℚ) (windowWidth windowHeight : ℤ) :
    BallObject :=
  if b.isStuck then b
  else
    let pos := b.position.Add (b.velocity.Mul deltaTime)
    if pos.y ≤ 0 then
      { b with velocity := ⟨b.velocity.x, -b.velocity.y⟩, position := ⟨pos.x, 0⟩ }
    else if pos.y + b.size.y ≥ (windowHeight : ℚ) then
      { b with velocity := ⟨b.velocity.x, -b.velocity.y⟩
               position := ⟨pos.x, (windowHeight : ℚ) - b.size.y⟩ }
    else
      { b with position := pos }

/-- `BallObject.Reset(position, velocity)`. -/
def BallObject.Reset (b : BallObject) (position velocity : Vec2) : BallObject :=
  { b with position := position, velocity := velocity }

/-- `Particle` from the particle_generator file. -/
structure Particle where
  position : Vec2
  velocity : Vec2
  color : Vec4
  life : ℚ
deriving DecidableEq, Repr

/-- The particle `Init` puts in every pool slot:
`newParticle(Vec2{0,0}, Vec2{0,0}, Vec4{1,1,1,1}, 0.0)`. Also used as the
out-of-range default of `List.getD` (the modelled Go code never reads out of
range; the bounds theorems below prove it). -/
def initParticle : Particle :=
  { position := ⟨0, 0⟩, velocity := ⟨0, 0⟩, color := ⟨1, 1, 1, 1⟩, life := 0 }

/-- `ParticleGenerator` state. The source keeps the slice `particles` in the
generator and the search cursor in the package-level variable
`lastUsedParticle` (initially `0`); the cursor is modelled as part of this
state. `Init` appends exactly `amount` particles, so `pg.amount` always
equals `particles.length` and the loops bounded by `pg.amount` are loops
over the whole pool; the embedding uses `particles.length` for them. -/
structure ParticleGenerator where
  particles : List Particle
  lastUsedParticle : ℕ
deriving DecidableEq, Repr

/-- `newParticleGenerator(shader, amount)` followed by `Init`: a pool of
`amount` copies of `initParticle`, with the package cursor at `0`. -/
def newParticleGenerator (amount : ℕ) : ParticleGenerator :=
  { particles := List.replicate amount initParticle
    lastUsedParticle := 0 }

/-- `ParticleGenerator.firstUnusedParticle`: scan `[lastUsedParticle, amount)`
for a slot with `life ≤ 0`, then `[0, lastUsedParticle)`, else fall back to
slot `0`. Returns the chosen index together with the updated value of the
package-level `lastUsedParticle` cursor. -/
def ParticleGenerator.firstUnusedParticle (pg : ParticleGenerator) : ℕ × ℕ :=
  match (List.range' pg.lastUsedParticle (pg.particles.length - pg.lastUsedParticle)).find?
      (fun i => decide ((pg.particles.getD i initParticle).life ≤ 0)) with
  | some i => (i, i)
  | none =>
    match (List.range' 0 pg.lastUsedParticle).find?
        (fun i => decide ((pg.particles.getD i initParticle).life ≤ 0)) with
    | some i => (i, i)
    | none => (0, 0)

/-- `ParticleGenerator.respawnParticle(particle, object, offset)`. The two
`rand.Int31n(50)` draws are the parameters `r31` (position jitter) and
`rc31` (gray level). All four fields of the slot are overwritten, so the
respawned particle is a function of the draws, the emitter and the offset
only. -/
def ParticleGenerator.respawnParticle (r31 rc31 : ℤ) (object : GameObject)
    (offset : Vec2) : Particle :=
  let random : ℚ := (r31 : ℚ) / 100 / 10
  let randomColor : ℚ := (rc31 : ℚ) / 100
  { position := (object.position.Add ⟨random, random⟩).Add offset
    color := ⟨randomColor, randomColor, randomColor, 1⟩
    life := 1
    velocity := object.velocity.Mul 0.1 }

/-- One iteration of the spawn loop in `ParticleGenerator.Update`:
`unusedParticle := pg.firstUnusedParticle(); pg.respawnParticle(...)`.
`r` carries the two random draws of this iteration. -/
def ParticleGenerator.spawnOne (object : GameObject) (offset : Vec2) (r : ℤ × ℤ)
    (pg : ParticleGenerator) : ParticleGenerator :=
  let iu := pg.firstUnusedParticle
  { particles := pg.particles.set iu.1 (ParticleGenerator.respawnParticle r.1 r.2 object offset)
    lastUsedParticle := iu.2 }

/-- The spawn loop of `ParticleGenerator.Update`: `newParticles` iterations,
one entry of `rs` (a pair of random draws) per iteration. -/
def ParticleGenerator.spawnMany (object : GameObject) (offset : Vec2)
    (rs : List (ℤ × ℤ)) (pg : ParticleGenerator) : ParticleGenerator :=
  rs.foldl (fun s r => ParticleGenerator.spawnOne object offset r s) pg

/-- Body of the second loop of `ParticleGenerator.Update`: decrement `life`
by `deltaTime`, and for a still-alive particle also move the position
backward along the velocity and fade the alpha by `2.5 * deltaTime`. -/
def ParticleGenerator.ageParticle (deltaTime : ℚ) (p : Particle) : Particle :=
  let life := p.life - deltaTime
  if life > 0 then
    { p with life := life
             position := p.position.Sub (p.velocity.Mul deltaTime)
             color := { p.color with w := p.color.w - deltaTime * 2.5 } }
  else
    { p with life := life }

/-- `ParticleGenerator.Update(deltaTime, object, newParticles, offset)`:
spawn `rs.length` particles (the source calls `Update` with
`newParticles = 1`), then age every slot of the pool. -/
def ParticleGenerator.Update (deltaTime : ℚ) (object : GameObject)
    (rs : List (ℤ × ℤ)) (offset : Vec2) (pg : ParticleGenerator) : ParticleGenerator :=
  let pg1 := ParticleGenerator.spawnMany object offset rs pg
  { pg1 with particles := pg1.particles.map (ParticleGenerator.ageParticle deltaTime) }

/-- `Character` from the text_renderer file: glyph texture handle and
metrics. -/
structure Character where
  textureID : ℕ
  width : ℤ
  height : ℤ
  advance : ℤ
  bearingH : ℤ
  bearingV : ℤ
deriving DecidableEq, Repr

/-- `TextRenderer.LoadFont`: the loop `for ch := rune(32); ch <= rune(127)`
appends one `Character` per code point to the initially empty `chars` list.
The glyph metrics depend on the font file and the rasterizer; `mk` abstracts
the `Character` built for a given code point. -/
def TextRenderer.LoadFont (mk : ℕ → Character) : List Character :=
  (List.range' 32 96).map mk

/-- The per-rune lookup `t.chars[char-lowChar]` in `TextRenderer.RenderText`
with `lowChar = 32`: `some` is an in-bounds slice access, `none` is the Go
out-of-range indexing panic (a negative or too-large index). -/
def TextRenderer.charLookup (chars : List Character) (c : ℤ) : Option Character :=
  if h : 0 ≤ c - 32 ∧ (c - 32).toNat < chars.length then
    some (chars.get ⟨(c - 32).toNat, h.2⟩)
  else
    none

/-- The glyph-lookup content of `TextRenderer.RenderText`: the formatted text
is a sequence of runes (code points), and each of them is looked up with
`charLookup` in string order; the result is `none` exactly when some rune's
lookup is an out-of-range indexing fault. -/
def TextRenderer.RenderText (chars : List Character) : List ℤ → Option (List Character)
  | [] => some []
  | c :: rest =>
    match TextRenderer.charLookup chars c, TextRenderer.RenderText chars rest with
    | some ch, some tail => some (ch :: tail)
    | _, _ => none

/-- `GameState` from the game file. -/
inductive GameState where
  | gameActive
  | gameMenu
  | gameWin
deriving DecidableEq, Repr

export GameState (gameActive gameMenu gameWin)

/-- The key states `Game.ProcessInput` reads from the `keys` map. -/
structure Keys where
  enter : Bool
  keyW : Bool
  keyS : Bool
  keyUp : Bool
  keyDown : Bool
deriving DecidableEq, Repr

/-- Package-level configuration of the game file. -/
def maxScore : ℤ := 10

/-- `paddleSize = mgl.Vec2{20, 100}`. -/
def paddleSize : Vec2 := ⟨20, 100⟩

/-- `paddleVelocity = float32(500)`. -/
def paddleVelocity : ℚ := 500

/-- `initialBallVelocity = mgl.Vec2{450.0, 300.0}`. -/
def initialBallVelocity : Vec2 := ⟨450, 300⟩

/-- `Game`: the fields of the game struct that carry game data, together
with the package-level `shakeTime` timer and the post-processor's `shake`
flag (the only effect state the game logic touches). `processedEnter`
models `processedKeys[glfw.KeyEnter]`, which the source writes but never
reads. -/
structure Game where
  state : GameState
  keys : Keys
  processedEnter : Bool
  width : ℤ
  height : ℤ
  particles : ParticleGenerator
  paddle1 : GameObject
  paddle2 : GameObject
  ball : BallObject
  paddle1Score : ℤ
  paddle2Score : ℤ
  shakeTime : ℚ
  effectsShake : Bool
deriving DecidableEq, Repr

/-- Paddle one's position from `Game.Init`:
`{10, float32(g.height/2) - paddleSize.Y()/2}` (Go integer division). -/
def initialPaddle1Position (height : ℤ) : Vec2 :=
  ⟨10, ((height / 2 : ℤ) : ℚ) - paddleSize.y / 2⟩

/-- Paddle two's position from `Game.Init`:
`{float32(g.width) - paddleSize.X() - 10, float32(g.height/2) - paddleSize.Y()/2}`. -/
def initialPaddle2Position (width height : ℤ) : Vec2 :=
  ⟨(width : ℚ) - paddleSize.x - 10, ((height / 2 : ℤ) : ℚ) - paddleSize.y / 2⟩

/-- `Game.Reset`: zero both scores, put both paddles back at the `Init`
coordinates, and reset the ball to the window center with
`initialBallVelocity`. -/
def Game.Reset (g : Game) : Game :=
  { g with paddle1Score := 0
           paddle2Score := 0
           paddle1 := g.paddle1.Reset ⟨10, ((g.height / 2 : ℤ) : ℚ) - paddleSize.y / 2⟩
           paddle2 := g.paddle2.Reset
             ⟨(g.width : ℚ) - paddleSize.x - 10, ((g.height / 2 : ℤ) : ℚ) - paddleSize.y / 2⟩
           ball := g.ball.Reset ⟨((g.width / 2 : ℤ) : ℚ), ((g.height / 2 : ℤ) : ℚ)⟩
             initialBallVelocity }

/-- `Game.ProcessInput(deltaTime)`: state-gated input handling. In `gameMenu`
and `gameWin`, Enter advances the state machine (and in the menu first calls
`Game.Reset`); in `gameActive` the four direction keys move the paddles,
each guarded by a pre-move bounds check. -/
def Game.ProcessInput (g : Game) (deltaTime : ℚ) : Game :=
  match g.state with
  | gameMenu =>
    if g.keys.enter then
      { g.Reset with state := gameActive, processedEnter := true }
    else g
  | gameWin =>
    if g.keys.enter then
      { g with state := gameMenu, processedEnter := true }
    else g
  | gameActive =>
    let deltaSpace := paddleVelocity * deltaTime
    let g := if g.keys.keyW && decide (g.paddle1.position.y ≥ 0) then
        { g with paddle1 := { g.paddle1 with position :=
            ⟨g.paddle1.position.x, g.paddle1.position.y - deltaSpace⟩ } }
      else g
    let g := if g.keys.keyS && decide (g.paddle1.position.y ≤ (g.height : ℚ) - g.paddle1.size.y) then
        { g with paddle1 := { g.paddle1 with position :=
            ⟨g.paddle1.position.x, g.paddle1.position.y + deltaSpace⟩ } }
      else g
    let g := if g.keys.keyUp && decide (g.paddle2.position.y ≥ 0) then
        { g with paddle2 := { g.paddle2 with position :=
            ⟨g.paddle2.position.x, g.paddle2.position.y - deltaSpace⟩ } }
      else g
    let g := if g.keys.keyDown && decide (g.paddle2.position.y ≤ (g.height : ℚ) - g.paddle2.size.y) then
        { g with paddle2 := { g.paddle2 with position :=
            ⟨g.paddle2.position.x, g.paddle2.position.y + deltaSpace⟩ } }
      else g
    g

/-- `g.ball.Move(deltaTime, g.width, g.height)` step of `Game.Update`. -/
def Game.stepBall (g : Game) (deltaTime : ℚ) : Game :=
  { g with ball := g.ball.Move deltaTime g.width g.height }

/-- `Game.DoCollisions`: on ball/paddle AABB overlap, start the shake effect
and flip the ball's horizontal velocity. -/
def Game.DoCollisions (g : Game) : Game :=
  if g.ball.toGameObject.CheckCollision g.paddle1 ||
      g.ball.toGameObject.CheckCollision g.paddle2 then
    { g with shakeTime := 0.1
             effectsShake := true
             ball := { g.ball with velocity := ⟨-g.ball.velocity.x, g.ball.velocity.y⟩ } }
  else g

/-- `g.particles.Update(deltaTime, &g.ball.GameObject, 1, {radius, radius})`
step of `Game.Update`; `r` is the pair of random draws of the single spawn. -/
def Game.stepParticles (g : Game) (deltaTime : ℚ) (r : ℤ × ℤ) : Game :=
  { g with particles := (ParticleGenerator.Update deltaTime g.ball.toGameObject [r]
      ⟨g.ball.radius, g.ball.radius⟩ g.particles) }

/-- The shake-timer block of `Game.Update`. -/
def Game.stepShake (g : Game) (deltaTime : ℚ) : Game :=
  if g.shakeTime > 0 then
    let shakeTime := g.shakeTime - deltaTime
    { g with shakeTime := shakeTime
             effectsShake := if shakeTime ≤ 0 then false else g.effectsShake }
  else g

/-- The scoring block of `Game.Update`: ball out on the left gives paddle
two a point and serves with `initialBallVelocity.Mul(-1)`; ball out on the
right gives paddle one a point and serves with `initialBallVelocity`. -/
def Game.stepScore (g : Game) : Game :=
  if g.ball.position.x ≤ 0 then
    { g with paddle2Score := g.paddle2Score + 1
             ball := g.ball.Reset ⟨((g.width / 2 : ℤ) : ℚ), ((g.height / 2 : ℤ) : ℚ)⟩
               (initialBallVelocity.Mul (-1)) }
  else if g.ball.position.x + g.ball.size.x ≥ (g.width : ℚ) then
    { g with paddle1Score := g.paddle1Score + 1
             ball := g.ball.Reset ⟨((g.width / 2 : ℤ) : ℚ), ((g.height / 2 : ℤ) : ℚ)⟩
               initialBallVelocity }
  else g

/-- The win-check block of `Game.Update`. -/
def Game.stepWin (g : Game) : Game :=
  if g.paddle1Score ≥ maxScore ∨ g.paddle2Score ≥ maxScore then
    { g with state := gameWin }
  else g

/-- `Game.Update(deltaTime)`: in `gameActive`, run the statements of the
source in order (ball move, collisions, particle update, shake timer,
scoring, win check); in any other state do nothing. -/
def Game.Update (g : Game) (deltaTime : ℚ) (r : ℤ × ℤ) : Game :=
  if g.state = gameActive then
    ((((g.stepBall deltaTime).DoCollisions.stepParticles deltaTime r).stepShake
        deltaTime).stepScore).stepWin
  else g

/-! ### Helper lemmas -/

/-- Characterisation of `CheckCollision` as a proposition. -/
lemma GameObject.checkCollision_iff (o other : GameObject) :
    o.CheckCollision other = true ↔
      (other.position.x ≤ o.position.x + o.size.x ∧
       o.position.x ≤ other.position.x + other.size.x ∧
       other.position.y ≤ o.position.y + o.size.y ∧
       o.position.y ≤ other.position.y + other.size.y) := by
  simp [GameObject.CheckCollision, ge_iff_le, and_assoc]

/-- `find?` over `range' s n` locates the least index at or above `s`
satisfying the predicate. -/
lemma find?_range'_eq_some (p : ℕ → Bool) (s n k : ℕ) (h1 : s ≤ k) (h2 : k < s + n)
    (h3 : ∀ i, s ≤ i → i < k → p i = false) (h4 : p k = true) :
    (List.range' s n).find? p = some k := by
  induction n generalizing s with
  | zero => omega
  | succ n ih =>
    rw [List.range'_succ]
    rcases eq_or_lt_of_le h1 with heq | hlt
    · subst heq
      exact List.find?_cons_of_pos _ h4
    · rw [List.find?_cons_of_neg _ (by simp [h3 s le_rfl hlt])]
      exact ih (s + 1) hlt (by omega) (fun i hi hik => h3 i (by omega) hik)

lemma getD_set_self {α : Type} (l : List α) (i : ℕ) (a d : α) (h : i < l.length) :
    (l.set i a).getD i d = a := by
  rw [List.getD_eq_getElem?_getD, List.getElem?_set_self h]
  rfl

lemma getD_set_ne {α : Type} (l : List α) (i j : ℕ) (a d : α) (h : i ≠ j) :
    (l.set i a).getD j d = l.getD j d := by
  rw [List.getD_eq_getElem?_getD, List.getElem?_set_ne h, ← List.getD_eq_getElem?_getD]

lemma getD_map_lt {α β : Type} (f : α → β) (l : List α) (i : ℕ) (d : β) (d' : α)
    (h : i < l.length) :
    (l.map f).getD i d = f (l.getD i d') := by
  rw [List.getD_eq_getElem?_getD, List.getElem?_map,
    List.getElem?_eq_getElem h, List.getD_eq_getElem l d' h]
  rfl

/-- If a predicate holds on exactly the first `n` positions of a list, the
`countP` is `n`. -/
lemma countP_eq_of_boundary {α : Type} (p : α → Bool) (d : α) (l : List α) (n : ℕ)
    (hn : n ≤ l.length)
    (h1 : ∀ i, i < n → p (l.getD i d) = true)
    (h2 : ∀ i, n ≤ i → i < l.length → p (l.getD i d) = false) :
    l.countP p = n := by
  induction l generalizing n with
  | nil =>
    simp only [List.length_nil, Nat.le_zero] at hn
    simp [hn]
  | cons a t ih =>
    cases n with
    | zero =>
      have ht : t.countP p = 0 :=
        ih 0 (Nat.zero_le _) (by omega)
          (fun i _ hi => h2 (i + 1) (Nat.zero_le _) (by simpa using Nat.succ_lt_succ hi))
      have ha : p a = false := h2 0 le_rfl (by simp)
      rw [List.countP_cons, ht, if_neg (by simp [ha])]
    | succ n =>
      have ha : p a = true := h1 0 (Nat.succ_pos n)
      have ht : t.countP p = n := by
        refine ih n (by simpa using hn) (fun i hi => h1 (i + 1) (by omega)) ?_
        intro i hi hlen
        exact h2 (i + 1) (by omega) (by simpa using Nat.succ_lt_succ hlen)
      rw [List.countP_cons, ht, if_pos ha]

/-- Complement of `countP_eq_of_boundary`: if a predicate fails on exactly
the first `n` positions, the `countP` is `length - n`. -/
lemma countP_eq_of_boundary_compl {α : Type} (p : α → Bool) (d : α) (l : List α) (n : ℕ)
    (hn : n ≤ l.length)
    (h1 : ∀ i, i < n → p (l.getD i d) = false)
    (h2 : ∀ i, n ≤ i → i < l.length → p (l.getD i d) = true) :
    l.countP p = l.length - n := by
  induction l generalizing n with
  | nil => simp
  | cons a t ih =>
    cases n with
    | zero =>
      have ht : t.countP p = t.length := by
        have := ih 0 (Nat.zero_le _) (by omega)
          (fun i _ hi => h2 (i + 1) (Nat.zero_le _) (by simpa using Nat.succ_lt_succ hi))
        simpa using this
      have ha : p a = true := h2 0 le_rfl (by simp)
      rw [List.countP_cons, ht, if_pos ha]
      simp
    | succ n =>
      have ha : p a = false := h1 0 (Nat.succ_pos n)
      have ht : t.countP p = t.length - n := by
        refine ih n (by simpa using hn) (fun i hi => h1 (i + 1) (by omega)) ?_
        intro i hi hlen
        exact h2 (i + 1) (by omega) (by simpa using Nat.succ_lt_succ hlen)
      rw [List.countP_cons, ht, if_neg (by simp [ha])]
      simp only [List.length_cons]
      omega

/-- If every rune of the text looks up successfully, the whole render does. -/
lemma renderText_isSome (chars : List Character) (text : List ℤ)
    (h : ∀ c ∈ text, (TextRenderer.charLookup chars c).isSome = true) :
    (TextRenderer.RenderText chars text).isSome = true := by
  induction text with
  | nil => rfl
  | cons c rest ih =>
    obtain ⟨ch, hch⟩ := Option.isSome_iff_exists.mp (h c (List.mem_cons_self c rest))
    obtain ⟨tl, htl⟩ := Option.isSome_iff_exists.mp
      (ih (fun x hx => h x (List.mem_cons_of_mem c hx)))
    simp [TextRenderer.RenderText, hch, htl]

/-- When the first `k` slots are freshly spawned (`life = 1`), slot `k` is
dead and the cursor sits at `k - 1` (`0` for `k = 0`), the search returns
slot `k` and moves the cursor there. -/
lemma firstUnused_at_boundary (pg : ParticleGenerator) (k : ℕ)
    (hk : k < pg.particles.length)
    (hlive : ∀ i, i < k → (pg.particles.getD i initParticle).life = 1)
    (hdeadk : (pg.particles.getD k initParticle).life ≤ 0)
    (hcur : pg.lastUsedParticle = k - 1) :
    pg.firstUnusedParticle = (k, k) := by
  have hfind : (List.range' pg.lastUsedParticle
      (pg.particles.length - pg.lastUsedParticle)).find?
        (fun i => decide ((pg.particles.getD i initParticle).life ≤ 0)) = some k := by
    refine find?_range'_eq_some _ _ _ k (by omega) (by omega) ?_ (by simpa using hdeadk)
    intro i hi hik
    have h1 : (pg.particles.getD i initParticle).life = 1 := hlive i hik
    rw [decide_eq_false_iff_not, h1]
    norm_num
  unfold ParticleGenerator.firstUnusedParticle
  rw [hfind]

/-- Invariant of the spawn loop of `ParticleGenerator.Update`: starting from
a state whose first `k` slots are alive with `life = 1`, all later slots
dead and the cursor at `k - 1`, spawning `rs.length` more particles fills
slots `k, …, k + rs.length - 1`, leaves everything beyond untouched and
parks the cursor at the last filled slot. -/
lemma spawnMany_fill (object : GameObject) (offset : Vec2) (rs : List (ℤ × ℤ))
    (pg : ParticleGenerator) (k : ℕ)
    (hlen : k + rs.length ≤ pg.particles.length)
    (hlive : ∀ i, i < k → (pg.particles.getD i initParticle).life = 1)
    (hdead : ∀ i, k ≤ i → i < pg.particles.length →
      (pg.particles.getD i initParticle).life ≤ 0)
    (hcur : pg.lastUsedParticle = k - 1) :
    (ParticleGenerator.spawnMany object offset rs pg).particles.length =
        pg.particles.length
  ∧ (∀ i, i < k + rs.length →
      ((ParticleGenerator.spawnMany object offset rs pg).particles.getD i
        initParticle).life = 1)
  ∧ (∀ i, k + rs.length ≤ i →
      (ParticleGenerator.spawnMany object offset rs pg).particles.getD i initParticle =
        pg.particles.getD i initParticle)
  ∧ (ParticleGenerator.spawnMany object offset rs pg).lastUsedParticle =
      (k + rs.length) - 1 := by
  induction rs generalizing pg k with
  | nil =>
    refine ⟨rfl, ?_, fun i _ => rfl, by simpa using hcur⟩
    intro i hi
    exact hlive i (by simpa using hi)
  | cons r rs ih =>
    have hk : k < pg.particles.length := by
      simp only [List.length_cons] at hlen; omega
    have hfu : pg.firstUnusedParticle = (k, k) :=
      firstUnused_at_boundary pg k hk hlive (hdead k le_rfl hk) hcur
    have hstep : ParticleGenerator.spawnMany object offset (r :: rs) pg =
        ParticleGenerator.spawnMany object offset rs
          (ParticleGenerator.spawnOne object offset r pg) := rfl
    set pg1 := ParticleGenerator.spawnOne object offset r pg with hpg1
    have hpg1parts : pg1.particles =
        pg.particles.set k (ParticleGenerator.respawnParticle r.1 r.2 object offset) := by
      simp [hpg1, ParticleGenerator.spawnOne, hfu]
    have hpg1cur : pg1.lastUsedParticle = k := by
      simp [hpg1, ParticleGenerator.spawnOne, hfu]
    have hlen1 : pg1.particles.length = pg.particles.length := by
      rw [hpg1parts, List.length_set]
    have hlive1 : ∀ i, i < k + 1 → (pg1.particles.getD i initParticle).life = 1 := by
      intro i hi
      rw [hpg1parts]
      rcases Nat.lt_or_ge i k with hik | hik
      · rw [getD_set_ne _ _ _ _ _ (by omega)]
        exact hlive i hik
      · have : i = k := by omega
        subst this
        rw [getD_set_self _ _ _ _ hk]
        rfl
    have hdead1 : ∀ i, k + 1 ≤ i → i < pg1.particles.length →
        (pg1.particles.getD i initParticle).life ≤ 0 := by
      intro i hi hilen
      rw [hpg1parts, getD_set_ne _ _ _ _ _ (by omega)]
      exact hdead i (by omega) (by rwa [hlen1] at hilen)
    have hih := ih pg1 (k + 1)
      (by rw [hlen1]; simp only [List.length_cons] at hlen; omega)
      hlive1 hdead1 (by omega)
    rw [hstep]
    refine ⟨by rw [hih.1, hlen1], ?_, ?_, ?_⟩
    · intro i hi
      simp only [List.length_cons] at hi
      exact hih.2.1 i (by omega)
    · intro i hi
      simp only [List.length_cons] at hi
      rw [hih.2.2.1 i (by omega), hpg1parts, getD_set_ne _ _ _ _ _ (by omega)]
    · rw [hih.2.2.2]
      simp only [List.length_cons]
      omega

/-- Aging changes a particle's life to `life - deltaTime` in both branches. -/
lemma ageParticle_life (deltaTime : ℚ) (p : Particle) :
    (ParticleGenerator.ageParticle deltaTime p).life = p.life - deltaTime := by
  simp only [ParticleGenerator.ageParticle]
  split <;> rfl

lemma stepBall_fields (g : Game) (deltaTime : ℚ) :
    (g.stepBall deltaTime).ball = g.ball.Move deltaTime g.width g.height ∧
    (g.stepBall deltaTime).paddle1Score = g.paddle1Score ∧
    (g.stepBall deltaTime).paddle2Score = g.paddle2Score ∧
    (g.stepBall deltaTime).width = g.width ∧
    (g.stepBall deltaTime).height = g.height ∧
    (g.stepBall deltaTime).state = g.state := by
  simp [Game.stepBall]

lemma DoCollisions_fields (g : Game) :
    g.DoCollisions.ball.position = g.ball.position ∧
    g.DoCollisions.ball.size = g.ball.size ∧
    g.DoCollisions.paddle1Score = g.paddle1Score ∧
    g.DoCollisions.paddle2Score = g.paddle2Score ∧
    g.DoCollisions.width = g.width ∧
    g.DoCollisions.height = g.height ∧
    g.DoCollisions.state = g.state := by
  unfold Game.DoCollisions
  split <;> simp

lemma stepParticles_fields (g : Game) (deltaTime : ℚ) (r : ℤ × ℤ) :
    (g.stepParticles deltaTime r).ball = g.ball ∧
    (g.stepParticles deltaTime r).paddle1Score = g.paddle1Score ∧
    (g.stepParticles deltaTime r).paddle2Score = g.paddle2Score ∧
    (g.stepParticles deltaTime r).width = g.width ∧
    (g.stepParticles deltaTime r).height = g.height ∧
    (g.stepParticles deltaTime r).state = g.state := by
  simp [Game.stepParticles]

lemma stepShake_fields (g : Game) (deltaTime : ℚ) :
    (g.stepShake deltaTime).ball = g.ball ∧
    (g.stepShake deltaTime).paddle1Score = g.paddle1Score ∧
    (g.stepShake deltaTime).paddle2Score = g.paddle2Score ∧
    (g.stepShake deltaTime).width = g.width ∧
    (g.stepShake deltaTime).height = g.height ∧
    (g.stepShake deltaTime).state = g.state := by
  unfold Game.stepShake
  split <;> simp

/-- The scoring step when the ball left on the left side. -/
lemma stepScore_left (g : Game) (hx : g.ball.position.x ≤ 0) :
    g.stepScore.paddle2Score = g.paddle2Score + 1 ∧
    g.stepScore.ball.position = ⟨((g.width / 2 : ℤ) : ℚ), ((g.height / 2 : ℤ) : ℚ)⟩ ∧
    g.stepScore.ball.velocity = initialBallVelocity.Mul (-1) ∧
    g.stepScore.state = g.state := by
  unfold Game.stepScore
  rw [if_pos hx]
  simp [BallObject.Reset]

lemma stepWin_fields (g : Game) :
    g.stepWin.paddle1Score = g.paddle1Score ∧
    g.stepWin.paddle2Score = g.paddle2Score ∧
    g.stepWin.ball = g.ball := by
  unfold Game.stepWin
  split <;> simp

/-- The state after the win check: `gameWin` exactly when a score reached
`maxScore`, otherwise the incoming state. -/
lemma stepWin_state (g : Game) :
    g.stepWin.state =
      if g.paddle1Score ≥ maxScore ∨ g.paddle2Score ≥ maxScore then gameWin
      else g.state := by
  unfold Game.stepWin
  split <;> simp

/-! ### Concrete objects used by witnesses and counterexamples -/

/-- A small box with nonnegative extents. -/
def exBoxA : GameObject := newGameObject ⟨0, 0⟩ ⟨4, 4⟩

/-- A box far to the right of `exBoxA` (disjoint on the x axis). -/
def exBoxB : GameObject := newGameObject ⟨100, 0⟩ ⟨4, 4⟩

/-- A concrete emitter object. -/
def exEmitter : GameObject := newGameObject ⟨3, 4⟩ ⟨2, 2⟩

/-- A ball taller than a 10-unit window, heading down from above the top. -/
def exTallBall : BallObject := newBallObject ⟨0, -8⟩ 10 ⟨0, 3⟩

/-- A ball about to hit the top wall of the real 800×600 window. -/
def exTopBall : BallObject := newBallObject ⟨5, 3⟩ 10 ⟨0, -6⟩

/-- A ball about to hit the bottom wall of the real 800×600 window. -/
def exBottomBall : BallObject := newBallObject ⟨5, 590⟩ 10 ⟨0, 6⟩

/-- All keys released. -/
def exKeys : Keys := ⟨false, false, false, false, false⟩

/-- An `gameActive` 800×600 game one point before match point, with the ball
just past the left bound (as `Game.Init` builds it, with a 2-slot pool to
keep witness evaluation small; the pool size is irrelevant to the scoring
path). -/
def exGameServe : Game :=
  { state := gameActive
    keys := exKeys
    processedEnter := false
    width := 800
    height := 600
    particles := newParticleGenerator 2
    paddle1 := newGameObject (initialPaddle1Position 600) paddleSize
    paddle2 := newGameObject (initialPaddle2Position 800 600) paddleSize
    ball := newBallObject ⟨-1, 300⟩ 10 ⟨0, 0⟩
    paddle1Score := 0
    paddle2Score := 0
    shakeTime := 0
    effectsShake := false }

/-- `exGameServe` with paddle two at nine points: the next serve wins. -/
def exGameMatchPoint : Game := { exGameServe with paddle2Score := 9 }

/-- A game sitting in the `gameWin` state with Enter held down. -/
def exGameWon : Game :=
  { exGameServe with state := gameWin, keys := { exKeys with enter := true },
                     paddle1Score := 10, paddle2Score := 3 }

/-- A game sitting in the `gameWin` state with no input. -/
def exGameWonIdle : Game := { exGameWon with keys := exKeys }

/-- A game sitting in the menu with Enter held down and stale scores. -/
def exGameMenu : Game :=
  { exGameServe with state := gameMenu, keys := { exKeys with enter := true },
                     paddle1Score := 4, paddle2Score := 7,
                     ball := newBallObject ⟨17, 23⟩ 10 ⟨9, 9⟩ }

/-! ### C3 -/

/-- A degenerate game object with negative extents. -/
def exNegBox : GameObject := newGameObject ⟨0, 0⟩ ⟨-1, -1⟩

/-- C3 counterexample: the self-overlap clause is not true of EVERY game
object — an object with negative extents fails its own collision test
(`0 + (-1) ≥ 0` is false), so `CheckCollision(A,A) = true` needs the
nonnegative-extent guard. -/
theorem checkCollision_self_counterexample :
    exNegBox.CheckCollision exNegBox = false := by
  with_unfolding_all decide

/-- C3 (amended): `CheckCollision` is symmetric for all pairs; every object
with nonnegative extents (every actual box) overlaps itself; pairs whose
extents are disjoint on the x or the y axis do not collide. Only the
self-overlap clause is amended, restricting it to nonnegative extents. -/
theorem checkCollision_symm_refl_disjoint (A B : GameObject) :
    (A.CheckCollision B = B.CheckCollision A)
  ∧ ((0 ≤ A.size.x ∧ 0 ≤ A.size.y) → A.CheckCollision A = true)
  ∧ ((A.position.x + A.size.x < B.position.x ∨ B.position.x + B.size.x < A.position.x ∨
      A.position.y + A.size.y < B.position.y ∨ B.position.y + B.size.y < A.position.y) →
      A.CheckCollision B = false) := by
  refine ⟨?_, ?_, ?_⟩
  · rw [Bool.eq_iff_iff, GameObject.checkCollision_iff, GameObject.checkCollision_iff]
    tauto
  · rintro ⟨hx, hy⟩
    rw [GameObject.checkCollision_iff]
    refine ⟨by linarith, by linarith, by linarith, by linarith⟩
  · intro h
    rw [Bool.eq_false_iff]
    intro hC
    rw [GameObject.checkCollision_iff] at hC
    obtain ⟨h1, h2, h3, h4⟩ := hC
    rcases h with h | h | h | h <;> linarith

/-- Witness for C3 at concrete boxes: `exBoxA` has nonnegative extents and
is x-disjoint from `exBoxB`; self-collision holds and the disjoint pair
does not collide. -/
theorem checkCollision_symm_refl_disjoint_witness :
    ((0 ≤ exBoxA.size.x ∧ 0 ≤ exBoxA.size.y)
  ∧ exBoxA.position.x + exBoxA.size.x < exBoxB.position.x)
  ∧ exBoxA.CheckCollision exBoxA = true
  ∧ exBoxA.CheckCollision exBoxB = false :=
  ⟨⟨by with_unfolding_all decide, by with_unfolding_all decide⟩,
    (checkCollision_symm_refl_disjoint exBoxA exBoxB).2.1 (by with_unfolding_all decide),
    (checkCollision_symm_refl_disjoint exBoxA exBoxB).2.2 (Or.inl (by with_unfolding_all decide))⟩

/-! ### C4 -/

/-- C4 counterexample: for `exTallBall` (size 20) in a 10-unit-high window
with `deltaTime = 1`, the integrated position satisfies both `y ≤ 0` and
`y + size.y ≥ windowHeight`, the source takes the top-wall branch, and the
post-move `position.y` is `0`, not `windowHeight - size.y` as the claim's
second clause states. -/
theorem ball_wall_reflection_counterexample :
    exTallBall.isStuck = false
  ∧ 0 < exTallBall.velocity.y
  ∧ (exTallBall.position.Add (exTallBall.velocity.Mul 1)).y + exTallBall.size.y ≥
      ((10 : ℤ) : ℚ)
  ∧ (exTallBall.Move 1 0 10).position.y ≠ ((10 : ℤ) : ℚ) - exTallBall.size.y := by
  refine ⟨rfl, by with_unfolding_all decide, by with_unfolding_all decide, by with_unfolding_all decide⟩

/-- C4 (amended): for a non-stuck ball, if the integrated position has
`y ≤ 0` (and the ball was moving up the screen, `velocity.y < 0`), the move
flips `velocity.y` and clamps `position.y` to `0`; if instead the
integrated position has `y > 0` and `y + size.y ≥ windowHeight`, the move
flips `velocity.y` and clamps `position.y` to `windowHeight - size.y`. The
amendment adds `y > 0` to the bottom-wall clause: the source tests the
bottom wall only in the `else` branch of the top-wall test. -/
theorem ball_wall_reflection (b : BallObject) (deltaTime : ℚ) (ww wh : ℤ)
    (hstuck : b.isStuck = false) :
    ((b.position.Add (b.velocity.Mul deltaTime)).y ≤ 0 → b.velocity.y < 0 →
      (b.Move deltaTime ww wh).velocity.y = -b.velocity.y ∧
      (b.Move deltaTime ww wh).position.y = 0)
  ∧ (0 < (b.position.Add (b.velocity.Mul deltaTime)).y →
     (b.position.Add (b.velocity.Mul deltaTime)).y + b.size.y ≥ (wh : ℚ) →
      (b.Move deltaTime ww wh).velocity.y = -b.velocity.y ∧
      (b.Move deltaTime ww wh).position.y = (wh : ℚ) - b.size.y) := by
  constructor
  · intro h1 h2
    simp only [BallObject.Move, hstuck, Bool.false_eq_true, if_false, if_pos h1]
    exact ⟨trivial, trivial⟩
  · intro h1 h2
    simp only [BallObject.Move, hstuck, Bool.false_eq_true, if_false,
      if_neg (not_le.mpr h1), if_pos h2]
    exact ⟨trivial, trivial⟩

/-- Witness for C4 at the real window size: a top-wall bounce
(`exTopBall`, integrated y = -3 ≤ 0, velocity.y = -6 < 0) and a bottom-wall
bounce (`exBottomBall`, integrated y = 596, 596 + 20 ≥ 600). -/
theorem ball_wall_reflection_witness :
    (exTopBall.isStuck = false
      ∧ (exTopBall.position.Add (exTopBall.velocity.Mul 1)).y ≤ 0
      ∧ exTopBall.velocity.y < 0
      ∧ (exTopBall.Move 1 800 600).velocity.y = -exTopBall.velocity.y
      ∧ (exTopBall.Move 1 800 600).position.y = 0)
  ∧ (exBottomBall.isStuck = false
      ∧ 0 < (exBottomBall.position.Add (exBottomBall.velocity.Mul 1)).y
      ∧ (exBottomBall.position.Add (exBottomBall.velocity.Mul 1)).y +
          exBottomBall.size.y ≥ ((600 : ℤ) : ℚ)
      ∧ (exBottomBall.Move 1 800 600).velocity.y = -exBottomBall.velocity.y
      ∧ (exBottomBall.Move 1 800 600).position.y = ((600 : ℤ) : ℚ) - exBottomBall.size.y) :=
  ⟨⟨rfl, by with_unfolding_all decide, by with_unfolding_all decide,
    (ball_wall_reflection exTopBall 1 800 600 rfl).1 (by with_unfolding_all decide) (by with_unfolding_all decide)⟩,
   ⟨rfl, by with_unfolding_all decide, by with_unfolding_all decide,
    (ball_wall_reflection exBottomBall 1 800 600 rfl).2 (by with_unfolding_all decide) (by with_unfolding_all decide)⟩⟩

/-! ### C6 -/

/-- C6 counterexample: with the draw `rand.Int31n(50) = 0` for the color,
`respawnParticle` produces the color `(0, 0, 0, 1)` — solid black. Reading
"a random gray tinted near-white" as all color channels at least `1/2`, the
produced color falsifies it (its red channel is `0`); indeed every draw
gives a channel value at most `0.49 < 1/2`. -/
theorem respawnParticle_color_counterexample :
    ((0 : ℤ) ≤ 0 ∧ (0 : ℤ) < 50)
  ∧ (ParticleGenerator.respawnParticle 0 0 exEmitter ⟨0, 0⟩).color = ⟨0, 0, 0, 1⟩
  ∧ ¬((1 : ℚ)/2 ≤ (ParticleGenerator.respawnParticle 0 0 exEmitter ⟨0, 0⟩).color.x) := by
  with_unfolding_all decide

/-- C6 (amended): every respawn sets `life = 1`, `velocity` to 10% of the
emitter's velocity, `position` to the emitter position plus an equal jitter
of at most `0.5` (in fact at most `0.049`) on both components plus the
offset, and `color` to a uniform gray `(c, c, c, 1)` with full opacity whose
level `c` lies in `[0, 0.49]` — possibly black, rather than the claimed
near-white. -/
theorem respawnParticle_post (r31 rc31 : ℤ) (object : GameObject) (offset : Vec2)
    (hr0 : 0 ≤ r31) (hr1 : r31 < 50) (hc0 : 0 ≤ rc31) (hc1 : rc31 < 50) :
    (ParticleGenerator.respawnParticle r31 rc31 object offset).life = 1
  ∧ (ParticleGenerator.respawnParticle r31 rc31 object offset).velocity =
      object.velocity.Mul 0.1
  ∧ (∃ j : ℚ, 0 ≤ j ∧ j ≤ 1/2 ∧
      (ParticleGenerator.respawnParticle r31 rc31 object offset).position =
        (object.position.Add ⟨j, j⟩).Add offset)
  ∧ (∃ c : ℚ, 0 ≤ c ∧ c ≤ 49/100 ∧
      (ParticleGenerator.respawnParticle r31 rc31 object offset).color =
        ⟨c, c, c, 1⟩) := by
  have hr1' : (r31 : ℚ) ≤ 49 := by exact_mod_cast Int.lt_add_one_iff.mp hr1
  have hr0' : (0 : ℚ) ≤ (r31 : ℚ) := by exact_mod_cast hr0
  have hc1' : (rc31 : ℚ) ≤ 49 := by exact_mod_cast Int.lt_add_one_iff.mp hc1
  have hc0' : (0 : ℚ) ≤ (rc31 : ℚ) := by exact_mod_cast hc0
  refine ⟨rfl, rfl, ⟨(r31 : ℚ) / 100 / 10, by positivity, by linarith, rfl⟩,
    ⟨(rc31 : ℚ) / 100, by positivity, by linarith, rfl⟩⟩

/-- Witness for C6 at the maximal draws `r31 = rc31 = 49`. -/
theorem respawnParticle_post_witness :
    (ParticleGenerator.respawnParticle 49 49 exEmitter ⟨1, 1⟩).life = 1
  ∧ (ParticleGenerator.respawnParticle 49 49 exEmitter ⟨1, 1⟩).velocity =
      exEmitter.velocity.Mul 0.1
  ∧ (∃ j : ℚ, 0 ≤ j ∧ j ≤ 1/2 ∧
      (ParticleGenerator.respawnParticle 49 49 exEmitter ⟨1, 1⟩).position =
        (exEmitter.position.Add ⟨j, j⟩).Add ⟨1, 1⟩)
  ∧ (∃ c : ℚ, 0 ≤ c ∧ c ≤ 49/100 ∧
      (ParticleGenerator.respawnParticle 49 49 exEmitter ⟨1, 1⟩).color =
        ⟨c, c, c, 1⟩) :=
  respawnParticle_post 49 49 exEmitter ⟨1, 1⟩ (by decide) (by decide)
    (by decide) (by decide)

/-! ### C8 -/

/-- C8: `LoadFont` builds a 96-entry character list (code points 32–127);
rendering any formatted text whose runes all lie in 32–127 only performs
in-bounds lookups at index `rune - 32` and succeeds; a rune outside that
range makes the lookup an out-of-range indexing fault (`none`), not a
replacement-glyph fallback. -/
theorem renderText_glyph_indexing (mk : ℕ → Character) :
    (TextRenderer.LoadFont mk).length = 96
  ∧ (∀ c : ℤ, 32 ≤ c → c ≤ 127 →
      0 ≤ c - 32 ∧ (c - 32).toNat < (TextRenderer.LoadFont mk).length)
  ∧ (∀ text : List ℤ, (∀ c ∈ text, 32 ≤ c ∧ c ≤ 127) →
      (TextRenderer.RenderText (TextRenderer.LoadFont mk) text).isSome = true)
  ∧ (∀ c : ℤ, c < 32 ∨ 127 < c →
      TextRenderer.charLookup (TextRenderer.LoadFont mk) c = none) := by
  have hlen : (TextRenderer.LoadFont mk).length = 96 := by
    simp [TextRenderer.LoadFont]
  refine ⟨hlen, ?_, ?_, ?_⟩
  · intro c h32 h127
    rw [hlen]
    omega
  · intro text htext
    refine renderText_isSome _ _ (fun c hc => ?_)
    obtain ⟨h32, h127⟩ := htext c hc
    rw [TextRenderer.charLookup, dif_pos ⟨by omega, by rw [hlen]; omega⟩]
    rfl
  · intro c hc
    rw [TextRenderer.charLookup, dif_neg]
    rw [hlen]
    omega

/-- Witness for C8 at a concrete glyph table and the text "Hi": both runes
are in range and render; runes 10 and 200 are out of range and fault. -/
theorem renderText_glyph_indexing_witness :
    ((32 : ℤ) ≤ 72 ∧ (72 : ℤ) ≤ 127)
  ∧ (∀ c ∈ [(72 : ℤ), 105], 32 ≤ c ∧ c ≤ 127)
  ∧ (TextRenderer.RenderText
      (TextRenderer.LoadFont (fun n => ⟨n, 0, 0, 0, 0, 0⟩)) [72, 105]).isSome = true
  ∧ TextRenderer.charLookup
      (TextRenderer.LoadFont (fun n => ⟨n, 0, 0, 0, 0, 0⟩)) 10 = none
  ∧ TextRenderer.charLookup
      (TextRenderer.LoadFont (fun n => ⟨n, 0, 0, 0, 0, 0⟩)) 200 = none :=
  ⟨⟨by decide, by decide⟩, by decide,
    (renderText_glyph_indexing (fun n => ⟨n, 0, 0, 0, 0, 0⟩)).2.2.1 [72, 105]
      (by decide),
    (renderText_glyph_indexing (fun n => ⟨n, 0, 0, 0, 0, 0⟩)).2.2.2 10 (Or.inl (by decide)),
    (renderText_glyph_indexing (fun n => ⟨n, 0, 0, 0, 0, 0⟩)).2.2.2 200 (Or.inr (by decide))⟩

/-- A 3-slot pool with every particle alive, cursor mid-pool. -/
def exAlivePool : ParticleGenerator :=
  { particles := List.replicate 3 { initParticle with life := 1/2 }
    lastUsedParticle := 1 }

/-- A 3-slot pool: slots 0 and 2 alive, slot 1 dead, cursor at 1. -/
def exMixedPool : ParticleGenerator :=
  { particles := [{ initParticle with life := 1 }, initParticle,
      { initParticle with life := 1 }]
    lastUsedParticle := 1 }

/-! ### C7 -/

/-- C7: when every particle in the pool is alive (`life > 0`), both scan
loops find nothing, `firstUnusedParticle` falls back to `(0, 0)`, and the
next spawn deterministically overwrites slot `0` — a total function, no
error surfaced. The cursor hypothesis is the standing invariant of the
package variable (it starts at `0` and, by the C9 theorem, stays below the
pool size). -/
theorem firstUnused_exhausted_slot0 (pg : ParticleGenerator) (object : GameObject)
    (offset : Vec2) (r : ℤ × ℤ)
    (hcur : pg.lastUsedParticle ≤ pg.particles.length)
    (halive : ∀ p ∈ pg.particles, 0 < p.life) :
    pg.firstUnusedParticle = (0, 0)
  ∧ (ParticleGenerator.spawnOne object offset r pg).particles =
      pg.particles.set 0 (ParticleGenerator.respawnParticle r.1 r.2 object offset)
  ∧ (ParticleGenerator.spawnOne object offset r pg).lastUsedParticle = 0 := by
  have hnone : ∀ (s n : ℕ), s + n ≤ pg.particles.length →
      (List.range' s n).find?
        (fun i => decide ((pg.particles.getD i initParticle).life ≤ 0)) = none := by
    intro s n hsn
    rw [List.find?_eq_none]
    intro i hi
    obtain ⟨j, hj, rfl⟩ := List.mem_range'.mp hi
    have hilen : s + 1 * j < pg.particles.length := by omega
    rw [List.getD_eq_getElem _ _ hilen]
    have := halive _ (List.getElem_mem hilen)
    simp only [decide_eq_true_eq, not_le]
    exact this
  have h1 := hnone pg.lastUsedParticle (pg.particles.length - pg.lastUsedParticle)
    (by omega)
  have h2 := hnone 0 pg.lastUsedParticle (by omega)
  have hfu : pg.firstUnusedParticle = (0, 0) := by
    unfold ParticleGenerator.firstUnusedParticle
    rw [h1, h2]
  refine ⟨hfu, ?_, ?_⟩
  · simp [ParticleGenerator.spawnOne, hfu]
  · simp [ParticleGenerator.spawnOne, hfu]

/-- Witness for C7: a 3-slot pool with every particle alive; the search
returns `(0, 0)` and the spawn overwrites slot `0`. -/
theorem firstUnused_exhausted_slot0_witness :
    (exAlivePool.lastUsedParticle ≤ exAlivePool.particles.length
      ∧ ∀ p ∈ exAlivePool.particles, 0 < p.life)
  ∧ exAlivePool.firstUnusedParticle = (0, 0)
  ∧ (ParticleGenerator.spawnOne exEmitter ⟨0, 0⟩ (7, 7) exAlivePool).particles =
      exAlivePool.particles.set 0
        (ParticleGenerator.respawnParticle 7 7 exEmitter ⟨0, 0⟩)
  ∧ (ParticleGenerator.spawnOne exEmitter ⟨0, 0⟩ (7, 7) exAlivePool).lastUsedParticle = 0 :=
  ⟨⟨by with_unfolding_all decide, by with_unfolding_all decide⟩,
    firstUnused_exhausted_slot0 exAlivePool exEmitter ⟨0, 0⟩ (7, 7)
      (by with_unfolding_all decide) (by with_unfolding_all decide)⟩

/-! ### C9 -/

/-- C9: under the cursor invariant `lastUsedParticle < pool size` (true
initially: `0 < 50`), `firstUnusedParticle` returns an index inside the
pool — so the pool access `pg.particles[unusedParticle]` in `Update` is in
bounds — the updated cursor again satisfies the invariant (also after the
full spawn), and whenever some slot is dead (`life ≤ 0`) the returned slot
is a dead one. -/
theorem firstUnused_bounds (pg : ParticleGenerator)
    (hcur : pg.lastUsedParticle < pg.particles.length) :
    pg.firstUnusedParticle.1 < pg.particles.length
  ∧ pg.firstUnusedParticle.2 < pg.particles.length
  ∧ ((∃ p ∈ pg.particles, p.life ≤ 0) →
      (pg.particles.getD pg.firstUnusedParticle.1 initParticle).life ≤ 0)
  ∧ (∀ object offset r,
      (ParticleGenerator.spawnOne object offset r pg).lastUsedParticle <
        (ParticleGenerator.spawnOne object offset r pg).particles.length) := by
  have hmain : pg.firstUnusedParticle.1 < pg.particles.length
      ∧ pg.firstUnusedParticle.2 < pg.particles.length
      ∧ ((∃ p ∈ pg.particles, p.life ≤ 0) →
          (pg.particles.getD pg.firstUnusedParticle.1 initParticle).life ≤ 0) := by
    unfold ParticleGenerator.firstUnusedParticle
    cases hf1 : (List.range' pg.lastUsedParticle
        (pg.particles.length - pg.lastUsedParticle)).find?
          (fun i => decide ((pg.particles.getD i initParticle).life ≤ 0)) with
    | some i =>
      dsimp only
      obtain ⟨j, hj, rfl⟩ := List.mem_range'.mp (List.mem_of_find?_eq_some hf1)
      have hp := List.find?_some hf1
      simp only [decide_eq_true_eq] at hp
      exact ⟨by omega, by omega, fun _ => hp⟩
    | none =>
      cases hf2 : (List.range' 0 pg.lastUsedParticle).find?
          (fun i => decide ((pg.particles.getD i initParticle).life ≤ 0)) with
      | some i =>
        dsimp only
        obtain ⟨j, hj, rfl⟩ := List.mem_range'.mp (List.mem_of_find?_eq_some hf2)
        have hp := List.find?_some hf2
        simp only [decide_eq_true_eq] at hp
        exact ⟨by omega, by omega, fun _ => hp⟩
      | none =>
        dsimp only
        refine ⟨by omega, by omega, ?_⟩
        rintro ⟨p, hp, hplife⟩
        obtain ⟨j, hjlen, rfl⟩ := List.mem_iff_getElem.mp hp
        have hdead : (pg.particles.getD j initParticle).life ≤ 0 := by
          rwa [List.getD_eq_getElem _ _ hjlen]
        rcases Nat.lt_or_ge j pg.lastUsedParticle with hj | hj
        · have := List.find?_eq_none.mp hf2 j
            (List.mem_range'.mpr ⟨j, hj, by omega⟩)
          simp only [decide_eq_true_eq] at this
          exact absurd hdead this
        · have := List.find?_eq_none.mp hf1 j
            (List.mem_range'.mpr ⟨j - pg.lastUsedParticle, by omega, by omega⟩)
          simp only [decide_eq_true_eq] at this
          exact absurd hdead this
  refine ⟨hmain.1, hmain.2.1, hmain.2.2, ?_⟩
  intro object offset r
  simp only [ParticleGenerator.spawnOne, List.length_set]
  exact hmain.2.1

/-- Witness for C9 on a 3-slot pool whose middle slot is dead, cursor at 1:
the returned slot is 1, in bounds and dead, and the cursor stays in
bounds after the spawn. -/
theorem firstUnused_bounds_witness :
    exMixedPool.lastUsedParticle < exMixedPool.particles.length
  ∧ exMixedPool.firstUnusedParticle.1 < exMixedPool.particles.length
  ∧ exMixedPool.firstUnusedParticle.2 < exMixedPool.particles.length
  ∧ (exMixedPool.particles.getD exMixedPool.firstUnusedParticle.1 initParticle).life ≤ 0
  ∧ (ParticleGenerator.spawnOne exEmitter ⟨0, 0⟩ (3, 4) exMixedPool).lastUsedParticle <
      (ParticleGenerator.spawnOne exEmitter ⟨0, 0⟩ (3, 4) exMixedPool).particles.length := by
  have h := firstUnused_bounds exMixedPool (by with_unfolding_all decide)
  exact ⟨by with_unfolding_all decide, h.1, h.2.1,
    h.2.2.1 ⟨exMixedPool.particles.getD 1 initParticle, by with_unfolding_all decide,
      by with_unfolding_all decide⟩,
    h.2.2.2 exEmitter ⟨0, 0⟩ (3, 4)⟩

/-! ### C1 -/

/-- C1 counterexample: in `exGameServe` (active, ball past the left bound),
the post-update serve velocity is `initialBallVelocity.Mul (-1)` =
`(-450, -300)`: the source negates BOTH components, so the velocity is not
"reversed in x with the y component unchanged" (`(-450, 300)`) as claimed. -/
theorem score_serve_counterexample :
    exGameServe.state = gameActive
  ∧ (exGameServe.ball.Move 0 exGameServe.width exGameServe.height).position.x ≤ 0
  ∧ (exGameServe.Update 0 (0, 0)).ball.velocity ≠
      ⟨-initialBallVelocity.x, initialBallVelocity.y⟩
  ∧ (exGameServe.Update 0 (0, 0)).ball.velocity = initialBallVelocity.Mul (-1) := by
  with_unfolding_all decide

/-- C1 (amended): during an active-state `Game.Update`, if the ball's
position (after the move step, which is the value the scoring check reads)
has `x ≤ 0`, paddle two's score increments by exactly one and the ball is
reset to the window center with velocity `initialBallVelocity.Mul (-1)` —
the original initial velocity with BOTH components negated (the y component
is negated too, not unchanged as claimed). -/
theorem score_serve (g : Game) (deltaTime : ℚ) (r : ℤ × ℤ)
    (hactive : g.state = gameActive)
    (hx : (g.ball.Move deltaTime g.width g.height).position.x ≤ 0) :
    (g.Update deltaTime r).paddle2Score = g.paddle2Score + 1
  ∧ (g.Update deltaTime r).ball.position =
      ⟨((g.width / 2 : ℤ) : ℚ), ((g.height / 2 : ℤ) : ℚ)⟩
  ∧ (g.Update deltaTime r).ball.velocity = initialBallVelocity.Mul (-1) := by
  rw [Game.Update, if_pos hactive]
  set g1 := g.stepBall deltaTime with hg1
  obtain ⟨hb1, hs11, hs12, hw1, hh1, hst1⟩ := stepBall_fields g deltaTime
  set g2 := g1.DoCollisions with hg2
  obtain ⟨hb2, hsz2, hs21, hs22, hw2, hh2, hst2⟩ := DoCollisions_fields g1
  set g3 := g2.stepParticles deltaTime r with hg3
  obtain ⟨hb3, hs31, hs32, hw3, hh3, hst3⟩ := stepParticles_fields g2 deltaTime r
  set g4 := g3.stepShake deltaTime with hg4
  obtain ⟨hb4, hs41, hs42, hw4, hh4, hst4⟩ := stepShake_fields g3 deltaTime
  have hx4 : g4.ball.position.x ≤ 0 := by
    rw [hb4, hb3, hb2, hb1]
    exact hx
  obtain ⟨hsc1, hsc2, hsc3, hsc4⟩ := stepScore_left g4 hx4
  obtain ⟨hw1', hw2', hw3'⟩ := stepWin_fields g4.stepScore
  refine ⟨?_, ?_, ?_⟩
  · rw [hw2', hsc1, hs42, hs32, hs22, hs12]
  · rw [hw3', hsc2, hw4, hw3, hw2, hw1, hh4, hh3, hh2, hh1]
  · rw [hw3', hsc3]

/-- Witness for C1 (amended) at `exGameServe`. -/
theorem score_serve_witness :
    exGameServe.state = gameActive
  ∧ (exGameServe.ball.Move (1/4) exGameServe.width exGameServe.height).position.x ≤ 0
  ∧ (exGameServe.Update (1/4) (7, 7)).paddle2Score = exGameServe.paddle2Score + 1
  ∧ (exGameServe.Update (1/4) (7, 7)).ball.position =
      ⟨((exGameServe.width / 2 : ℤ) : ℚ), ((exGameServe.height / 2 : ℤ) : ℚ)⟩
  ∧ (exGameServe.Update (1/4) (7, 7)).ball.velocity = initialBallVelocity.Mul (-1) :=
  ⟨rfl, by with_unfolding_all decide,
    score_serve exGameServe (1/4) (7, 7) rfl (by with_unfolding_all decide)⟩

/-! ### C5 -/

/-- C5: in an active-state update the post-update state is `gameWin`
exactly when a post-update score has reached `maxScore` (so the transition
fires however far the threshold is exceeded); once in `gameWin`, `Update`
is the identity (the transition happens exactly once); and from `gameWin`
only the Enter confirm changes the state, to `gameMenu`. -/
theorem win_transition (g : Game) (deltaTime : ℚ) (r : ℤ × ℤ) :
    (g.state = gameActive →
      ((g.Update deltaTime r).state = gameWin ↔
        (g.Update deltaTime r).paddle1Score ≥ maxScore ∨
        (g.Update deltaTime r).paddle2Score ≥ maxScore))
  ∧ (g.state = gameWin → g.Update deltaTime r = g)
  ∧ (g.state = gameWin →
      (g.ProcessInput deltaTime).state =
        if g.keys.enter then gameMenu else gameWin) := by
  refine ⟨?_, ?_, ?_⟩
  · intro hactive
    rw [Game.Update, if_pos hactive]
    set g4 := ((g.stepBall deltaTime).DoCollisions.stepParticles deltaTime
      r).stepShake deltaTime with hg4
    have hst4 : g4.state = gameActive := by
      rw [hg4, (stepShake_fields _ _).2.2.2.2.2,
        (stepParticles_fields _ _ _).2.2.2.2.2,
        (DoCollisions_fields _).2.2.2.2.2.2, (stepBall_fields _ _).2.2.2.2.2]
      exact hactive
    have hst5 : g4.stepScore.state = gameActive := by
      unfold Game.stepScore
      split
      · simpa using hst4
      · split
        · simpa using hst4
        · exact hst4
    obtain ⟨hp1, hp2, _⟩ := stepWin_fields g4.stepScore
    rw [stepWin_state, hp1, hp2]
    by_cases hwin : g4.stepScore.paddle1Score ≥ maxScore ∨
        g4.stepScore.paddle2Score ≥ maxScore
    · rw [if_pos hwin]
      simp [hwin]
    · rw [if_neg hwin, hst5]
      simp [hwin]
  · intro hwin
    rw [Game.Update, if_neg (by rw [hwin]; exact fun h => nomatch h)]
  · intro hwin
    cases he : g.keys.enter <;> simp [Game.ProcessInput, hwin, he]

/-- Witness for C5: `exGameMatchPoint` reaches ten points in one update and
transitions to `gameWin`; `exGameWonIdle` is left untouched by `Update`;
`exGameWon` (Enter held) moves to `gameMenu` on input processing. -/
theorem win_transition_witness :
    exGameMatchPoint.state = gameActive
  ∧ (exGameMatchPoint.Update 0 (0, 0)).paddle2Score = 10
  ∧ (exGameMatchPoint.Update 0 (0, 0)).state = gameWin
  ∧ exGameWonIdle.state = gameWin
  ∧ exGameWonIdle.Update (1/2) (3, 3) = exGameWonIdle
  ∧ (exGameWon.ProcessInput (1/2)).state = gameMenu :=
  ⟨rfl, by with_unfolding_all decide,
    ((win_transition exGameMatchPoint 0 (0, 0)).1 rfl).mpr
      (Or.inr (by with_unfolding_all decide)),
    rfl,
    (win_transition exGameWonIdle (1/2) (3, 3)).2.1 rfl,
    by
      have h := (win_transition exGameWon (1/2) (3, 3)).2.2 rfl
      rwa [if_pos (by with_unfolding_all decide)] at h⟩

/-! ### C10 -/

/-- C10: an Enter confirm in the menu resets the whole match before
entering `gameActive` — both scores zero, both paddles at their `Game.Init`
positions, ball at the window center with `initialBallVelocity` — while the
`gameWin`-to-`gameMenu` confirm changes only the state (and the
write-only `processedKeys` flag): scores, paddles and ball are untouched. -/
theorem confirm_transitions (g : Game) (deltaTime : ℚ) :
    (g.state = gameMenu → g.keys.enter = true →
      (g.ProcessInput deltaTime).state = gameActive
      ∧ (g.ProcessInput deltaTime).paddle1Score = 0
      ∧ (g.ProcessInput deltaTime).paddle2Score = 0
      ∧ (g.ProcessInput deltaTime).paddle1.position = initialPaddle1Position g.height
      ∧ (g.ProcessInput deltaTime).paddle2.position =
          initialPaddle2Position g.width g.height
      ∧ (g.ProcessInput deltaTime).ball.position =
          ⟨((g.width / 2 : ℤ) : ℚ), ((g.height / 2 : ℤ) : ℚ)⟩
      ∧ (g.ProcessInput deltaTime).ball.velocity = initialBallVelocity)
  ∧ (g.state = gameWin → g.keys.enter = true →
      (g.ProcessInput deltaTime).state = gameMenu
      ∧ (g.ProcessInput deltaTime).paddle1Score = g.paddle1Score
      ∧ (g.ProcessInput deltaTime).paddle2Score = g.paddle2Score
      ∧ (g.ProcessInput deltaTime).paddle1 = g.paddle1
      ∧ (g.ProcessInput deltaTime).paddle2 = g.paddle2
      ∧ (g.ProcessInput deltaTime).ball = g.ball) := by
  constructor
  · intro hmenu henter
    simp [Game.ProcessInput, hmenu, henter, Game.Reset, GameObject.Reset,
      BallObject.Reset, initialPaddle1Position, initialPaddle2Position]
  · intro hwin henter
    simp [Game.ProcessInput, hwin, henter]

/-- Witness for C10: the menu confirm in `exGameMenu` (stale scores 4:7,
displaced ball) resets everything and activates the game; the win confirm
in `exGameWon` keeps scores 10:3 and all object positions. -/
theorem confirm_transitions_witness :
    (exGameMenu.state = gameMenu ∧ exGameMenu.keys.enter = true
      ∧ (exGameMenu.ProcessInput 1).state = gameActive
      ∧ (exGameMenu.ProcessInput 1).paddle1Score = 0
      ∧ (exGameMenu.ProcessInput 1).paddle2Score = 0
      ∧ (exGameMenu.ProcessInput 1).paddle1.position =
          initialPaddle1Position exGameMenu.height
      ∧ (exGameMenu.ProcessInput 1).ball.position =
          ⟨((exGameMenu.width / 2 : ℤ) : ℚ), ((exGameMenu.height / 2 : ℤ) : ℚ)⟩
      ∧ (exGameMenu.ProcessInput 1).ball.velocity = initialBallVelocity)
  ∧ (exGameWon.state = gameWin ∧ exGameWon.keys.enter = true
      ∧ (exGameWon.ProcessInput 1).state = gameMenu
      ∧ (exGameWon.ProcessInput 1).paddle1Score = exGameWon.paddle1Score
      ∧ (exGameWon.ProcessInput 1).ball = exGameWon.ball) := by
  have h1 := (confirm_transitions exGameMenu 1).1 rfl rfl
  have h2 := (confirm_transitions exGameWon 1).2 rfl rfl
  exact ⟨⟨rfl, rfl, h1.1, h1.2.1, h1.2.2.1, h1.2.2.2.1, h1.2.2.2.2.2.1,
    h1.2.2.2.2.2.2⟩, ⟨rfl, rfl, h2.1, h2.2.1, h2.2.2.2.2.2⟩⟩

/-! ### C2 -/

/-- C2 counterexample: spawn `N = 1` particle into an all-dead `M = 2` pool
via the full `ParticleGenerator.Update` with `deltaTime = 1/2`. The aging
loop of the same `Update` subtracts `deltaTime` from every slot — including
the just-spawned one — so no slot ends with `life = 1.0` (the spawned slot
holds `1/2`), refuting "exactly N slots have life = 1.0" for the state
after `Update`. -/
theorem particle_spawn_counterexample :
    (∀ p ∈ (newParticleGenerator 2).particles, p.life ≤ 0)
  ∧ (newParticleGenerator 2).lastUsedParticle = 0
  ∧ (1 : ℕ) < (newParticleGenerator 2).particles.length
  ∧ (ParticleGenerator.Update (1/2) exEmitter [(0, 0)] ⟨0, 0⟩
      (newParticleGenerator 2)).particles.countP (fun p => decide (p.life = 1)) = 0 := by
  with_unfolding_all decide

/-- C2 (amended): spawning `N = rs.length` particles into an `M`-slot pool
that starts all dead with the cursor at `0` (`N < M`) leaves, immediately
after the spawn loop of `Update`, exactly `N` slots with `life = 1.0` and
the remaining `M - N` slots with `life ≤ 0`; the aging loop of the same
`Update` then subtracts `deltaTime` from every slot, so after the full
`Update` (with `0 ≤ deltaTime < 1`) exactly `N` slots have
`life = 1.0 - deltaTime` and the remaining `M - N` slots have `life ≤ 0`. -/
theorem particle_spawn_recycle (object : GameObject) (offset : Vec2)
    (rs : List (ℤ × ℤ)) (pg : ParticleGenerator) (deltaTime : ℚ)
    (hdead : ∀ p ∈ pg.particles, p.life ≤ 0)
    (hcur : pg.lastUsedParticle = 0)
    (hN : rs.length < pg.particles.length)
    (hdt0 : 0 ≤ deltaTime) (hdt1 : deltaTime < 1) :
    ((ParticleGenerator.spawnMany object offset rs pg).particles.countP
        (fun p => decide (p.life = 1)) = rs.length
      ∧ (ParticleGenerator.spawnMany object offset rs pg).particles.countP
        (fun p => decide (p.life ≤ 0)) = pg.particles.length - rs.length)
  ∧ ((ParticleGenerator.Update deltaTime object rs offset pg).particles.countP
        (fun p => decide (p.life = 1 - deltaTime)) = rs.length
      ∧ (ParticleGenerator.Update deltaTime object rs offset pg).particles.countP
        (fun p => decide (p.life ≤ 0)) = pg.particles.length - rs.length) := by
  have hdeadIdx : ∀ i, i < pg.particles.length →
      (pg.particles.getD i initParticle).life ≤ 0 := by
    intro i hi
    rw [List.getD_eq_getElem _ _ hi]
    exact hdead _ (List.getElem_mem hi)
  obtain ⟨hlen1, hlive1, huntouched, _⟩ :=
    spawnMany_fill object offset rs pg 0 (by omega) (by omega)
      (fun i _ hi => hdeadIdx i hi) (by rw [hcur])
  simp only [Nat.zero_add] at hlen1 hlive1 huntouched
  have hdeadHigh : ∀ i, rs.length ≤ i → i < pg.particles.length →
      ((ParticleGenerator.spawnMany object offset rs pg).particles.getD i
        initParticle).life ≤ 0 := by
    intro i hi hilen
    rw [huntouched i hi]
    exact hdeadIdx i hilen
  have hspawn1 : (ParticleGenerator.spawnMany object offset rs pg).particles.countP
      (fun p => decide (p.life = 1)) = rs.length := by
    refine countP_eq_of_boundary _ initParticle _ rs.length (by omega) ?_ ?_
    · intro i hi
      rw [decide_eq_true_eq]
      exact hlive1 i hi
    · intro i hi hilen
      rw [hlen1] at hilen
      have := hdeadHigh i hi hilen
      simp only [decide_eq_false_iff_not]
      intro hcontra
      rw [hcontra] at this
      norm_num at this
  have hspawn2 : (ParticleGenerator.spawnMany object offset rs pg).particles.countP
      (fun p => decide (p.life ≤ 0)) = pg.particles.length - rs.length := by
    rw [← hlen1]
    refine countP_eq_of_boundary_compl _ initParticle _ rs.length (by omega) ?_ ?_
    · intro i hi
      rw [decide_eq_false_iff_not, hlive1 i hi]
      norm_num
    · intro i hi hilen
      rw [hlen1] at hilen
      simpa using hdeadHigh i hi hilen
  have hupd : (ParticleGenerator.Update deltaTime object rs offset pg).particles =
      (ParticleGenerator.spawnMany object offset rs pg).particles.map
        (ParticleGenerator.ageParticle deltaTime) := rfl
  have hlenu : (ParticleGenerator.Update deltaTime object rs offset pg).particles.length =
      pg.particles.length := by
    rw [hupd, List.length_map, hlen1]
  have hlifeu : ∀ i, i < pg.particles.length →
      ((ParticleGenerator.Update deltaTime object rs offset pg).particles.getD i
          initParticle).life =
        ((ParticleGenerator.spawnMany object offset rs pg).particles.getD i
          initParticle).life - deltaTime := by
    intro i hi
    rw [hupd, getD_map_lt _ _ _ _ initParticle (by rw [hlen1]; exact hi),
      ageParticle_life]
  have hupd1 : (ParticleGenerator.Update deltaTime object rs offset pg).particles.countP
      (fun p => decide (p.life = 1 - deltaTime)) = rs.length := by
    refine countP_eq_of_boundary _ initParticle _ rs.length (by omega) ?_ ?_
    · intro i hi
      rw [decide_eq_true_eq, hlifeu i (by omega), hlive1 i hi]
    · intro i hi hilen
      rw [hlenu] at hilen
      rw [decide_eq_false_iff_not, hlifeu i hilen]
      have := hdeadHigh i hi hilen
      intro hcontra
      have : ((ParticleGenerator.spawnMany object offset rs pg).particles.getD i
          initParticle).life = 1 := by linarith
      linarith [hdeadHigh i hi hilen]
  have hupd2 : (ParticleGenerator.Update deltaTime object rs offset pg).particles.countP
      (fun p => decide (p.life ≤ 0)) = pg.particles.length - rs.length := by
    rw [← hlenu]
    refine countP_eq_of_boundary_compl _ initParticle _ rs.length (by omega) ?_ ?_
    · intro i hi
      rw [decide_eq_false_iff_not, hlifeu i (by omega), hlive1 i hi]
      intro hcontra
      linarith
    · intro i hi hilen
      rw [hlenu] at hilen
      rw [decide_eq_true_eq, hlifeu i hilen]
      have := hdeadHigh i hi hilen
      linarith
  exact ⟨⟨hspawn1, hspawn2⟩, ⟨hupd1, hupd2⟩⟩

/-- Witness for C2 (amended): one spawn into an all-dead 3-slot pool with
`deltaTime = 1/2`: after the spawn loop one slot has `life = 1` and two
have `life ≤ 0`; after the full `Update` one slot has `life = 1/2` and two
have `life ≤ 0`. -/
theorem particle_spawn_recycle_witness :
    ((∀ p ∈ (newParticleGenerator 3).particles, p.life ≤ 0)
      ∧ (newParticleGenerator 3).lastUsedParticle = 0
      ∧ [((5 : ℤ), (9 : ℤ))].length < (newParticleGenerator 3).particles.length)
  ∧ ((ParticleGenerator.spawnMany exEmitter ⟨1, 1⟩ [(5, 9)]
        (newParticleGenerator 3)).particles.countP
        (fun p => decide (p.life = 1)) = [((5 : ℤ), (9 : ℤ))].length
      ∧ (ParticleGenerator.spawnMany exEmitter ⟨1, 1⟩ [(5, 9)]
        (newParticleGenerator 3)).particles.countP
        (fun p => decide (p.life ≤ 0)) =
          (newParticleGenerator 3).particles.length - [((5 : ℤ), (9 : ℤ))].length)
  ∧ ((ParticleGenerator.Update (1/2) exEmitter [(5, 9)] ⟨1, 1⟩
        (newParticleGenerator 3)).particles.countP
        (fun p => decide (p.life = 1 - 1/2)) = [((5 : ℤ), (9 : ℤ))].length
      ∧ (ParticleGenerator.Update (1/2) exEmitter [(5, 9)] ⟨1, 1⟩
        (newParticleGenerator 3)).particles.countP
        (fun p => decide (p.life ≤ 0)) =
          (newParticleGenerator 3).particles.length - [((5 : ℤ), (9 : ℤ))].length) :=
  ⟨⟨by with_unfolding_all decide, rfl, by with_unfolding_all decide⟩,
    (particle_spawn_recycle exEmitter ⟨1, 1⟩ [(5, 9)] (newParticleGenerator 3) (1/2)
      (by with_unfolding_all decide) rfl (by with_unfolding_all decide)
      (by with_unfolding_all decide) (by with_unfolding_all decide)).1,
    (particle_spawn_recycle exEmitter ⟨1, 1⟩ [(5, 9)] (newParticleGenerator 3) (1/2)
      (by with_unfolding_all decide) rfl (by with_unfolding_all decide)
      (by with_unfolding_all decide) (by with_unfolding_all decide)).2⟩
